import Mathlib

/-!
Verification of the project-operations module of a Kanban MCP client
(`src/operations/projects.ts`).

The module wraps five CRUD operations (list, get, create, update, delete)
over a remote REST service. Each TypeScript function builds a request,
hands it to a generic request function (`plankaRequest`), validates the
decoded JSON response against a declared schema, and wraps any failure in
a uniform error message.

Embedding choices:
* Decoded JSON values are modelled by the inductive type `Json`.
* The generic request function is modelled as a parameter
  `remote : Request → RemoteOutcome`: for the request actually issued it
  either returns a decoded JSON body or raises an error carrying a message.
* Each operation is a pure function returning the pair of the outgoing
  `Request` and the operation's result (`OpResult`), where
  `OpResult.error m` models a thrown `Error` with message `m`.
-/

/-- A decoded JSON value, as returned by the transport layer. -/
inductive Json where
  | null : Json
  | bool : Bool → Json
  | num : Int → Json
  | str : String → Json
  | arr : List Json → Json
  | obj : List (String × Json) → Json

/-- Field lookup in a decoded JSON object (JS object keys are unique;
the first binding wins). -/
def Json.lookup (key : String) : List (String × Json) → Option Json
  | [] => none
  | (k, v) :: rest => if k = key then some v else Json.lookup key rest

/-- An outgoing HTTP request as handed to `plankaRequest`: path (with query
string), method, and optional JSON body. -/
structure Request where
  path : String
  method : String
  body : Option Json

/-- Outcome of the call to `plankaRequest`: either a decoded JSON response
body, or a raised `Error` carrying a message. -/
inductive RemoteOutcome where
  | success : Json → RemoteOutcome
  | failure : String → RemoteOutcome

/-- Result of one operation: the returned value, or a thrown `Error`
carrying a message. A single error shape with only a message models the
module's single `Error` kind. -/
inductive OpResult (α : Type) where
  | ok : α → OpResult α
  | error : String → OpResult α

/-- Modelled from the spec: `PlankaProjectSchema` is imported from
`src/common/types.ts`, which is not among the provided sources. Per the
spec, a Project is a record with at least a string identifier and a string
name; additional fields are opaque and passed through unchanged. -/
def parsePlankaProject (j : Json) : Option Json :=
  match j with
  | Json.obj fields =>
    match Json.lookup "id" fields, Json.lookup "name" fields with
    | some (Json.str _), some (Json.str _) => some j
    | _, _ => none
  | _ => none

/-- Parse of the optional `included: z.record(z.any()).optional()` field:
absent is allowed; present it must be a plain object (zod records reject
arrays and primitives); its values are unconstrained. -/
def parseIncluded : Option Json → Option (Option (List (String × Json)))
  | none => some none
  | some (Json.obj r) => some (some r)
  | some _ => none

/-- Validated shape of `ProjectsResponseSchema`:
`{ items: PlankaProject[], included?: record }` (unknown keys stripped). -/
structure ProjectsResponse where
  items : List Json
  included : Option (List (String × Json))

/-- Validated shape of `ProjectResponseSchema`:
`{ item: PlankaProject, included?: record }` (unknown keys stripped). -/
structure ProjectResponse where
  item : Json
  included : Option (List (String × Json))

/-- `ProjectsResponseSchema.parse`: requires an object with an `items`
array of valid projects and an optional `included` record; `none` models a
thrown `ZodError`. -/
def parseProjectsResponse (j : Json) : Option ProjectsResponse :=
  match j with
  | Json.obj fields =>
    match Json.lookup "items" fields with
    | some (Json.arr xs) =>
      match xs.mapM parsePlankaProject, parseIncluded (Json.lookup "included" fields) with
      | some items, some inc => some ⟨items, inc⟩
      | _, _ => none
    | _ => none
  | _ => none

/-- `ProjectResponseSchema.parse`: requires an object with an `item` that
is a valid project and an optional `included` record; `none` models a
thrown `ZodError`. -/
def parseProjectResponse (j : Json) : Option ProjectResponse :=
  match j with
  | Json.obj fields =>
    match Json.lookup "item" fields with
    | some it =>
      match parsePlankaProject it, parseIncluded (Json.lookup "included" fields) with
      | some item, some inc => some ⟨item, inc⟩
      | _, _ => none
    | none => none
  | _ => none

/-- Modelled from the spec: the message of the `ZodError` thrown when a
response does not conform to its schema. Its exact text comes from the
validator library (outside the sources); only the wrapping added around it
is specified, so the model uses a fixed placeholder string. -/
def zodMessage : String := "Response validation failed"

/-- Modelled from the spec: `plankaRequest` (in `src/common/utils.ts`, not
among the provided sources) defaults the HTTP method to GET when the
caller passes no options, matching the spec's interface table for `get`. -/
def defaultMethod : String := "GET"

/-- The `perPage` limit enforcement in `getProjects`
(`if (perPage > 100) { perPage = 100; }`). -/
def clampPerPage (perPage : Int) : Int :=
  if perPage > 100 then 100 else perPage

/-- The query path built by `getProjects` via `URLSearchParams`: `page`
appended first, then `per_page`. -/
def projectsQueryPath (page perPage : Int) : String :=
  "/api/projects?page=" ++ toString page ++ "&per_page=" ++ toString perPage

/-- `getProjects(page = 1, perPage = 30)`: clamps `perPage` to 100, issues
GET on `/api/projects` with the query string, validates the response
against `ProjectsResponseSchema`, and wraps any failure. `none` arguments
model call sites that omit the parameter, taking the declared defaults. -/
def getProjects (page perPage : Option Int) (remote : Request → RemoteOutcome) :
    Request × OpResult ProjectsResponse :=
  let p := page.getD 1
  let pp := clampPerPage (perPage.getD 30)
  let req : Request := { path := projectsQueryPath p pp, method := "GET", body := none }
  (req,
    match remote req with
    | RemoteOutcome.success j =>
      match parseProjectsResponse j with
      | some r => OpResult.ok r
      | none => OpResult.error ("Failed to get projects: " ++ zodMessage)
    | RemoteOutcome.failure m => OpResult.error ("Failed to get projects: " ++ m))

/-- `getProject(id)`: GET on `/api/projects/{id}` (no options passed, so
the transport's default method applies), validates against
`ProjectResponseSchema`, and returns `parsedResponse.item`. -/
def getProject (id : String) (remote : Request → RemoteOutcome) :
    Request × OpResult Json :=
  let req : Request := { path := "/api/projects/" ++ id, method := defaultMethod, body := none }
  (req,
    match remote req with
    | RemoteOutcome.success j =>
      match parseProjectResponse j with
      | some r => OpResult.ok r.item
      | none => OpResult.error ("Failed to get project: " ++ zodMessage)
    | RemoteOutcome.failure m => OpResult.error ("Failed to get project: " ++ m))

/-- Argument record of `createProject` (`CreateProjectOptions`). -/
structure CreateProjectOptions where
  name : String

/-- Argument record of `updateProject` (`UpdateProjectOptions`):
`id` required, `name` optional. -/
structure UpdateProjectOptions where
  id : String
  name : Option String

/-- `createProject(options)`: POST on `/api/projects` with body
`{ name: options.name }`, validates against `ProjectResponseSchema`, and
returns `parsedResponse.item`. -/
def createProject (options : CreateProjectOptions) (remote : Request → RemoteOutcome) :
    Request × OpResult Json :=
  let req : Request :=
    { path := "/api/projects", method := "POST",
      body := some (Json.obj [("name", Json.str options.name)]) }
  (req,
    match remote req with
    | RemoteOutcome.success j =>
      match parseProjectResponse j with
      | some r => OpResult.ok r.item
      | none => OpResult.error ("Failed to create project: " ++ zodMessage)
    | RemoteOutcome.failure m => OpResult.error ("Failed to create project: " ++ m))

/-- The PATCH body built by `updateProject`: starts empty and receives
`name` only when `options.name !== undefined`. -/
def updateProjectBody (options : UpdateProjectOptions) : List (String × Json) :=
  match options.name with
  | some n => [("name", Json.str n)]
  | none => []

/-- `updateProject(options)`: PATCH on `/api/projects/{options.id}` with
the partial body, validates against `ProjectResponseSchema`, and returns
`parsedResponse.item`. -/
def updateProject (options : UpdateProjectOptions) (remote : Request → RemoteOutcome) :
    Request × OpResult Json :=
  let req : Request :=
    { path := "/api/projects/" ++ options.id, method := "PATCH",
      body := some (Json.obj (updateProjectBody options)) }
  (req,
    match remote req with
    | RemoteOutcome.success j =>
      match parseProjectResponse j with
      | some r => OpResult.ok r.item
      | none => OpResult.error ("Failed to update project: " ++ zodMessage)
    | RemoteOutcome.failure m => OpResult.error ("Failed to update project: " ++ m))

/-- Return shape of `deleteProject`. -/
structure DeleteResult where
  success : Bool

/-- `deleteProject(id)`: DELETE on `/api/projects/{id}`; the response body
is discarded unvalidated and `{ success: true }` is returned. -/
def deleteProject (id : String) (remote : Request → RemoteOutcome) :
    Request × OpResult DeleteResult :=
  let req : Request := { path := "/api/projects/" ++ id, method := "DELETE", body := none }
  (req,
    match remote req with
    | RemoteOutcome.success _ => OpResult.ok ⟨true⟩
    | RemoteOutcome.failure m => OpResult.error ("Failed to delete project: " ++ m))

/-- A well-formed single-item response used as concrete test data. -/
def sampleProject : Json :=
  Json.obj [("id", Json.str "42"), ("name", Json.str "Demo")]

/-- A conforming `{ item }` response around `sampleProject`. -/
def sampleItemResponse : Json :=
  Json.obj [("item", sampleProject)]

/-- Clamping leaves values at most 100 unchanged. -/
theorem clampPerPage_of_le {perPage : Int} (h : perPage ≤ 100) :
    clampPerPage perPage = perPage := by
  unfold clampPerPage
  rw [if_neg (by omega)]

/-- Clamping reduces values above 100 to 100. -/
theorem clampPerPage_of_gt {perPage : Int} (h : 100 < perPage) :
    clampPerPage perPage = 100 := by
  unfold clampPerPage
  rw [if_pos (by omega)]

/-- The clamped value never exceeds 100. -/
theorem clampPerPage_le (perPage : Int) : clampPerPage perPage ≤ 100 := by
  unfold clampPerPage
  split <;> omega

/-- C1: the effective per-page value sent by `getProjects` is 100 when the
supplied `perPage` exceeds 100, the supplied value when it is at most 100,
and 30 when omitted; the page value defaults to 1 when omitted; and the
per-page value sent never exceeds 100 for any input. -/
theorem getProjects_effective_per_page (page : Option Int) (perPage : Int)
    (ppOpt : Option Int) (remote : Request → RemoteOutcome) :
    (100 < perPage →
      (getProjects page (some perPage) remote).1.path
        = projectsQueryPath (page.getD 1) 100)
    ∧ (perPage ≤ 100 →
      (getProjects page (some perPage) remote).1.path
        = projectsQueryPath (page.getD 1) perPage)
    ∧ (getProjects page none remote).1.path = projectsQueryPath (page.getD 1) 30
    ∧ (getProjects none ppOpt remote).1.path
        = projectsQueryPath 1 (clampPerPage (ppOpt.getD 30))
    ∧ clampPerPage (ppOpt.getD 30) ≤ 100 := by
  refine ⟨fun h => ?_, fun h => ?_, ?_, ?_, clampPerPage_le _⟩
  · show projectsQueryPath (page.getD 1) (clampPerPage perPage) = _
    rw [clampPerPage_of_gt h]
  · show projectsQueryPath (page.getD 1) (clampPerPage perPage) = _
    rw [clampPerPage_of_le h]
  · show projectsQueryPath (page.getD 1) (clampPerPage 30) = _
    rw [clampPerPage_of_le (by omega)]
  · rfl

/-- C1 witness: concrete instances of the clamping behavior, at
`perPage = 150` (clamped) and `perPage = 50` (unchanged). -/
theorem getProjects_effective_per_page_witness :
    (getProjects (some 2) (some 150) (fun _ => RemoteOutcome.failure "boom")).1.path
        = "/api/projects?page=2&per_page=100"
    ∧ (getProjects (some 2) (some 50) (fun _ => RemoteOutcome.failure "boom")).1.path
        = "/api/projects?page=2&per_page=50"
    ∧ (getProjects none none (fun _ => RemoteOutcome.failure "boom")).1.path
        = "/api/projects?page=1&per_page=30" := by
  have h1 := (getProjects_effective_per_page (some 2) 150 none
    (fun _ => RemoteOutcome.failure "boom")).1 (by omega)
  have h2 := (getProjects_effective_per_page (some 2) 50 none
    (fun _ => RemoteOutcome.failure "boom")).2.1 (by omega)
  have h3 := (getProjects_effective_per_page none 0 none
    (fun _ => RemoteOutcome.failure "boom")).2.2.1
  exact ⟨by rw [h1]; rfl, by rw [h2]; rfl, by rw [h3]; rfl⟩

/-- C2: for each response-parsing operation, a response value that does not
conform to its declared schema makes the operation fail with an error
rather than return any value. -/
theorem nonconforming_response_fails (page perPage : Option Int) (id nm : String)
    (uo : UpdateProjectOptions) (j : Json) :
    (parseProjectsResponse j = none →
      (getProjects page perPage (fun _ => RemoteOutcome.success j)).2
        = OpResult.error ("Failed to get projects: " ++ zodMessage))
    ∧ (parseProjectResponse j = none →
      (getProject id (fun _ => RemoteOutcome.success j)).2
        = OpResult.error ("Failed to get project: " ++ zodMessage))
    ∧ (parseProjectResponse j = none →
      (createProject ⟨nm⟩ (fun _ => RemoteOutcome.success j)).2
        = OpResult.error ("Failed to create project: " ++ zodMessage))
    ∧ (parseProjectResponse j = none →
      (updateProject uo (fun _ => RemoteOutcome.success j)).2
        = OpResult.error ("Failed to update project: " ++ zodMessage)) := by
  refine ⟨fun h => ?_, fun h => ?_, fun h => ?_, fun h => ?_⟩ <;>
    simp only [getProjects, getProject, createProject, updateProject, h]

/-- C2 witness: a response missing the required `items` / `item` field
(here the empty object) makes every parsing operation fail. -/
theorem nonconforming_response_fails_witness :
    (getProjects none none (fun _ => RemoteOutcome.success (Json.obj []))).2
      = OpResult.error ("Failed to get projects: " ++ zodMessage)
    ∧ (getProject "42" (fun _ => RemoteOutcome.success (Json.obj []))).2
      = OpResult.error ("Failed to get project: " ++ zodMessage) := by
  have h := nonconforming_response_fails none none "42" "New" ⟨"42", none⟩ (Json.obj [])
  exact ⟨h.1 rfl, h.2.1 rfl⟩

/-- C3: the PATCH body of `updateProject` contains exactly the optional
keys the caller supplied: only `{id}` gives the empty body `{}`, and
`{id, name}` gives exactly `{name}`; the id is never in the body. -/
theorem updateProject_body_exact (id nm : String) (opts : UpdateProjectOptions)
    (remote : Request → RemoteOutcome) :
    (updateProject ⟨id, none⟩ remote).1.body = some (Json.obj [])
    ∧ (updateProject ⟨id, some nm⟩ remote).1.body
        = some (Json.obj [("name", Json.str nm)])
    ∧ Json.lookup "id" (updateProjectBody opts) = none := by
  refine ⟨rfl, rfl, ?_⟩
  unfold updateProjectBody
  cases opts.name <;> simp [Json.lookup]

/-- C4: every operation turns any failure of the request call or of
response validation into a single error whose message is the cause's
message prefixed with "Failed to <operation> project(s): "; there is no
separate error kind for any failure class. -/
theorem uniform_error_wrapping (page perPage : Option Int) (id nm : String)
    (uo : UpdateProjectOptions) (m : String) (j : Json) :
    ((getProjects page perPage (fun _ => RemoteOutcome.failure m)).2
      = OpResult.error ("Failed to get projects: " ++ m))
    ∧ ((getProject id (fun _ => RemoteOutcome.failure m)).2
      = OpResult.error ("Failed to get project: " ++ m))
    ∧ ((createProject ⟨nm⟩ (fun _ => RemoteOutcome.failure m)).2
      = OpResult.error ("Failed to create project: " ++ m))
    ∧ ((updateProject uo (fun _ => RemoteOutcome.failure m)).2
      = OpResult.error ("Failed to update project: " ++ m))
    ∧ ((deleteProject id (fun _ => RemoteOutcome.failure m)).2
      = OpResult.error ("Failed to delete project: " ++ m))
    ∧ (parseProjectsResponse j = none →
      (getProjects page perPage (fun _ => RemoteOutcome.success j)).2
        = OpResult.error ("Failed to get projects: " ++ zodMessage))
    ∧ (parseProjectResponse j = none →
      (getProject id (fun _ => RemoteOutcome.success j)).2
        = OpResult.error ("Failed to get project: " ++ zodMessage))
    ∧ (parseProjectResponse j = none →
      (createProject ⟨nm⟩ (fun _ => RemoteOutcome.success j)).2
        = OpResult.error ("Failed to create project: " ++ zodMessage))
    ∧ (parseProjectResponse j = none →
      (updateProject uo (fun _ => RemoteOutcome.success j)).2
        = OpResult.error ("Failed to update project: " ++ zodMessage)) := by
  refine ⟨rfl, rfl, rfl, rfl, rfl, fun h => ?_, fun h => ?_, fun h => ?_, fun h => ?_⟩ <;>
    simp only [getProjects, getProject, createProject, updateProject, h]

/-- C4 witness: the wrapped message at a concrete cause, for a transport
failure and for a validation failure. -/
theorem uniform_error_wrapping_witness :
    (deleteProject "7" (fun _ => RemoteOutcome.failure "connection reset")).2
      = OpResult.error "Failed to delete project: connection reset"
    ∧ (getProject "7" (fun _ => RemoteOutcome.success Json.null)).2
      = OpResult.error ("Failed to get project: " ++ zodMessage) := by
  have h := uniform_error_wrapping none none "7" "New" ⟨"7", none⟩
    "connection reset" Json.null
  exact ⟨h.2.2.2.2.1, h.2.2.2.2.2.2.1 rfl⟩

/-- C5: whenever the underlying request does not raise, `deleteProject`
returns exactly `{success: true}`, whatever the response body holds. -/
theorem deleteProject_fixed_success (id : String) (j : Json) :
    (deleteProject id (fun _ => RemoteOutcome.success j)).2
      = OpResult.ok ⟨true⟩ := rfl

/-- C6: on a conforming single-item response, `getProject` returns only
the `item` field of the validated response; `included` is discarded. -/
theorem getProject_returns_item_only (id : String) (j : Json) (r : ProjectResponse)
    (h : parseProjectResponse j = some r) :
    (getProject id (fun _ => RemoteOutcome.success j)).2 = OpResult.ok r.item := by
  simp only [getProject, h]

/-- C6 witness: a concrete response `{item, included}` from which only the
item comes back. -/
theorem getProject_returns_item_only_witness :
    (getProject "42" (fun _ => RemoteOutcome.success
      (Json.obj [("item", sampleProject), ("included", Json.obj [])]))).2
      = OpResult.ok sampleProject :=
  getProject_returns_item_only "42"
    (Json.obj [("item", sampleProject), ("included", Json.obj [])])
    ⟨sampleProject, some []⟩ rfl

/-- C7 counterexample: `createProject` with the empty name does issue the
POST with body `{name: ""}` and succeeds on a conforming response, so no
non-emptiness constraint is enforced
(`CreateProjectSchema` is `z.object({name: z.string()})` with no minimum
length, and `createProject` performs no input validation of its own). -/
theorem createProject_empty_name_succeeds :
    (createProject ⟨""⟩ (fun _ => RemoteOutcome.success sampleItemResponse)).1.body
      = some (Json.obj [("name", Json.str "")])
    ∧ (createProject ⟨""⟩ (fun _ => RemoteOutcome.success sampleItemResponse)).2
      = OpResult.ok sampleProject :=
  ⟨rfl, rfl⟩

/-- C7 amended: `createProject` requires `name` to be a string but does
not check non-emptiness: for every name, the empty string included, it
issues POST to `/api/projects` with body `{name}`. -/
theorem createProject_sends_any_name (nm : String)
    (remote : Request → RemoteOutcome) :
    (createProject ⟨nm⟩ remote).1.method = "POST"
    ∧ (createProject ⟨nm⟩ remote).1.path = "/api/projects"
    ∧ (createProject ⟨nm⟩ remote).1.body
        = some (Json.obj [("name", Json.str nm)]) :=
  ⟨rfl, rfl, rfl⟩

/-- C8 counterexample: `getProject` with the empty id does proceed to issue
the request, namely to `/api/projects/`, and succeeds on a conforming
response; no non-emptiness constraint is enforced
(`GetProjectSchema` is `z.object({id: z.string()})` with no minimum
length, and `getProject` performs no input validation of its own). -/
theorem getProject_empty_id_requests :
    (getProject "" (fun _ => RemoteOutcome.success sampleItemResponse)).1.path
      = "/api/projects/"
    ∧ (getProject "" (fun _ => RemoteOutcome.success sampleItemResponse)).2
      = OpResult.ok sampleProject :=
  ⟨rfl, rfl⟩

/-- C8 amended: `getProject` requires `id` to be a string but does not
check non-emptiness: for every id, the empty string included, it issues
the request to `/api/projects/{id}`. -/
theorem getProject_requests_any_id (id : String)
    (remote : Request → RemoteOutcome) :
    (getProject id remote).1.path = "/api/projects/" ++ id
    ∧ (getProject id remote).1.method = defaultMethod :=
  ⟨rfl, rfl⟩

/-- C9: each operation uses the method and path of the interface table:
list GET `/api/projects?page=<n>&per_page=<m>` (page first), get GET
`/api/projects/{id}`, create POST `/api/projects`, update PATCH
`/api/projects/{id}`, delete DELETE `/api/projects/{id}`. -/
theorem interface_table (page perPage : Int) (id nm : String)
    (uo : UpdateProjectOptions) (remote : Request → RemoteOutcome) :
    ((getProjects (some page) (some perPage) remote).1.method = "GET")
    ∧ ((getProjects (some page) (some perPage) remote).1.path
        = "/api/projects?page=" ++ toString page
          ++ "&per_page=" ++ toString (clampPerPage perPage))
    ∧ ((getProject id remote).1.method = "GET")
    ∧ ((getProject id remote).1.path = "/api/projects/" ++ id)
    ∧ ((createProject ⟨nm⟩ remote).1.method = "POST")
    ∧ ((createProject ⟨nm⟩ remote).1.path = "/api/projects")
    ∧ ((updateProject uo remote).1.method = "PATCH")
    ∧ ((updateProject uo remote).1.path = "/api/projects/" ++ uo.id)
    ∧ ((deleteProject id remote).1.method = "DELETE")
    ∧ ((deleteProject id remote).1.path = "/api/projects/" ++ id) :=
  ⟨rfl, rfl, rfl, rfl, rfl, rfl, rfl, rfl, rfl, rfl⟩

/-- C10: `getProjects` applies no lower-bound validation or clamping: any
page value (zero and negatives included) and any `perPage` at most 100
(zero and negatives included) go into the query unchanged. -/
theorem getProjects_no_lower_bound (page perPage : Int)
    (remote : Request → RemoteOutcome) (h : perPage ≤ 100) :
    (getProjects (some page) (some perPage) remote).1.path
      = "/api/projects?page=" ++ toString page
        ++ "&per_page=" ++ toString perPage := by
  show projectsQueryPath page (clampPerPage perPage) = _
  rw [clampPerPage_of_le h]
  rfl

/-- C10 witness: a negative page and a zero perPage pass through
unchanged. -/
theorem getProjects_no_lower_bound_witness :
    (getProjects (some (-3)) (some 0) (fun _ => RemoteOutcome.failure "boom")).1.path
      = "/api/projects?page=-3&per_page=0" := by
  have h := getProjects_no_lower_bound (-3) 0
    (fun _ => RemoteOutcome.failure "boom") (by omega)
  rw [h]
  rfl
